import Mathlib

/-!
Shallow embedding of `rosm_pbf_reader` (`src/lib.rs`), a low-level reader for
OSM PBF data, together with theorems checking the natural-language
specification against it.

Modelling conventions:
- Rust byte buffers (`Vec<u8>`, `&[u8]`) are `List Nat` (each element a byte value).
- Machine integers are `Int`/`Nat`; the one place where the source makes
  wrap/overflow behaviour observable, `u32::checked_add_signed` in
  `DenseNodeReader::next`, is modelled with an explicit `2 ^ 32` bound.
- `std::io::Read` streams are finite byte lists; `read_exact` succeeds iff
  enough bytes remain and otherwise fails with `UnexpectedEof` (modelled as
  `none`).  This models well-behaved finite streams; other I/O error kinds are
  not modelled.
- External structured-message decoding (the `prost`-generated `pbf` module is
  not part of `src/`) is passed in as function parameters, and the generated
  message types are modelled as plain structures with exactly the fields
  `lib.rs` accesses.
- Iterators are modelled as explicit states with a `next : state → Option item × state`
  step function, plus a fuel-indexed runner `runIter`.
-/

set_option autoImplicit false

namespace Rosm

/-- A byte buffer (`Vec<u8>` / `&[u8]`); elements are byte values. -/
abbrev Bytes := List Nat

/-- Blob compression method (`CompressionMethod` in `lib.rs`). -/
inductive CompressionMethod where
  | Lz4
  | Lzma
  | Zlib
  | Zstd
  deriving DecidableEq

/-- Possible errors returned by `Decompressor` implementations
(`DecompressionError` in `lib.rs`); the boxed cause of `InternalError` is
modelled as a string. -/
inductive DecompressionError where
  | UnsupportedCompression
  | InternalError (cause : String)
  deriving DecidableEq

/-- Possible errors returned by the library (`Error` in `lib.rs`).
`PbfParseError`'s `prost::DecodeError` payload is modelled as a string and
`IoError`'s `std::io::Error` payload is dropped (both are opaque to the
library's own logic). -/
inductive Error where
  | PbfParseError (msg : String)
  | IoError
  | InvalidBlobHeader
  | InvalidBlobData
  | DecompressionError (e : DecompressionError)
  | LogicError (msg : String)
  deriving DecidableEq

/-- Block type tag carried by a `RawBlock` (`BlockType` in `lib.rs`). -/
inductive BlockType where
  | Header
  | Primitive
  | Unknown
  deriving DecidableEq

/-- `impl From<&str> for BlockType` in `lib.rs` (`from` is a Lean keyword,
hence the adapted name). -/
def BlockType.from_string (value : String) : BlockType :=
  match value with
  | "OSMHeader" => BlockType.Header
  | "OSMData" => BlockType.Primitive
  | _ => BlockType.Unknown

/-- Modelled from the spec: the generated `pbf::BlobHeader` message (the
`pbf` module is generated protobuf code, not under `src/`), with exactly the
fields `read_blob` accesses: `type: string`, `datasize: signed 32-bit`. -/
structure BlobHeader where
  type : String
  datasize : Int
  deriving DecidableEq

/-- An unparsed, possibly compressed block (`RawBlock` in `lib.rs`). -/
structure RawBlock where
  type : BlockType
  data : Bytes
  deriving DecidableEq

/-- `Read::read_exact` on a finite byte stream: succeeds iff at least `n`
bytes remain, returning the bytes read and the rest of the stream; `none`
models failure with `ErrorKind::UnexpectedEof` (which Rust reports both when
zero bytes and when `1..n-1` bytes were available). -/
def readExact (n : Nat) (s : Bytes) : Option (Bytes × Bytes) :=
  if n ≤ s.length then some (s.take n, s.drop n) else none

/-- `i32::from_be_bytes` on a 4-byte buffer. -/
def i32_from_be_bytes (b : Bytes) : Int :=
  let raw : Nat := b.getD 0 0 * 2 ^ 24 + b.getD 1 0 * 2 ^ 16 + b.getD 2 0 * 2 ^ 8 + b.getD 3 0
  if raw < 2 ^ 31 then (raw : Int) else (raw : Int) - 2 ^ 32

/-- Final stage of `read_blob` in `lib.rs`: validating the decoded blob
header's `datasize` and reading that many payload bytes.  The Rust source
resizes the `blob` vector to `blob_size` and then `read_exact`s into it,
i.e. it reads exactly `blob_size` fresh bytes. -/
def read_blob_payload (blob_header : BlobHeader) (rest2 : Bytes) : Except Error RawBlock :=
  let block_type := BlockType.from_string blob_header.type
  let blob_size : Int := blob_header.datasize
  if ¬ (0 ≤ blob_size ∧ blob_size < 32 * 1024 * 1024) then
    Except.error Error.InvalidBlobData
  else
    match readExact blob_size.toNat rest2 with
    | none => Except.error Error.IoError
    | some (data, _rest3) => Except.ok { type := block_type, data := data }

/-- Middle stage of `read_blob` in `lib.rs`: validating the 4-byte length,
reading and decoding the `BlobHeader` message.  `dec` is the external
`pbf::BlobHeader::decode` (prost-generated, not under `src/`). -/
def read_blob_frame (dec : Bytes → Except String BlobHeader) (blob_header_size : Int)
    (rest : Bytes) : Except Error RawBlock :=
  if ¬ (0 ≤ blob_header_size ∧ blob_header_size < 64 * 1024) then
    Except.error Error.InvalidBlobHeader
  else
    match readExact blob_header_size.toNat rest with
    | none => Except.error Error.IoError
    | some (blob, rest2) =>
      match dec blob with
      | Except.error e => Except.error (Error.PbfParseError e)
      | Except.ok blob_header => read_blob_payload blob_header rest2

/-- `read_blob` in `lib.rs`.  A failure of the very first 4-byte read (which
in Rust is an `UnexpectedEof` whenever fewer than 4 bytes remain, whether 0
or 1–3 were available) yields `none`; everything after that is
`read_blob_frame`.  A single call is modelled. -/
def read_blob (dec : Bytes → Except String BlobHeader) (pbf : Bytes) :
    Option (Except Error RawBlock) :=
  match readExact 4 pbf with
  | none => none
  | some (header_size_buffer, rest) =>
    some (read_blob_frame dec (i32_from_be_bytes header_size_buffer) rest)

/-- A blob-header decoder that always fails; used to instantiate theorems at
points where the decoder is never reached or its result is irrelevant. -/
def decFail : Bytes → Except String BlobHeader := fun _ => Except.error "unreached"

/-- A blob-header decoder returning a constant header with the given type
string and declared data size. -/
def decConst (t : String) (n : Int) : Bytes → Except String BlobHeader :=
  fun _ => Except.ok { type := t, datasize := n }

/-- Modelled from the spec: the payload variant of the generated `pbf::Blob`
message (`pbf::blob::Data`, generated protobuf code not under `src/`), with
the six variants `parse_block` dispatches on. -/
inductive BlobData where
  | Raw (bytes : Bytes)
  | ZlibData (bytes : Bytes)
  | Lz4Data (bytes : Bytes)
  | LzmaData (bytes : Bytes)
  | ZstdData (bytes : Bytes)
  | ObsoleteBzip2Data (bytes : Bytes)
  deriving DecidableEq

/-- Modelled from the spec: the generated `pbf::Blob` message (not under
`src/`), with exactly the fields `parse_block` accesses: an optional declared
uncompressed size (`raw_size: signed 32-bit`) and an optional payload
variant. -/
structure Blob where
  raw_size : Option Int
  data : Option BlobData
  deriving DecidableEq

/-- Result of `BlockParser::parse_block` (`Block` in `lib.rs`); the
prost-generated `pbf::HeaderBlock` / `pbf::PrimitiveBlock` record types are
external, so the variants are generic in them. -/
inductive Block (H P : Type) where
  | Header (block : H)
  | Primitive (block : P)
  | Unknown (bytes : Bytes)
  deriving DecidableEq

/-- Parser state: the internal reusable buffer (`BlockParser` in `lib.rs`). -/
structure BlockParser where
  block_buffer : Bytes
  deriving DecidableEq

/-- `Vec::resize_with(n, Default::default)` on a byte vector: truncates or
extends with zero bytes to length exactly `n`. -/
def resize_with (buf : Bytes) (n : Nat) : Bytes :=
  buf.take n ++ List.replicate (n - buf.length) 0

/-- The `Decompressor` trait: given a method, the compressed input and the
pre-sized output buffer (a `&mut [u8]`, so its length is fixed), either fail
or return the buffer's new contents. -/
abbrev DecompressorFn := CompressionMethod → Bytes → Bytes → Except DecompressionError Bytes

/-- `DefaultDecompressor::decompress` with default features disabled: always
`UnsupportedCompression`.  (With the optional feature bundle it would delegate
Zlib to an external codec, which is outside `src/`'s own logic.) -/
def default_decompress : DecompressorFn := fun _ _ _ =>
  Except.error DecompressionError.UnsupportedCompression

/-- `BlockParser::parse_block` in `lib.rs`.  `decodeBlob`,
`decodeHeaderBlock` and `decodePrimitiveBlock` are the external
prost-generated decoders (not under `src/`); `decompress` is the installed
`Decompressor` implementation.  Returns the result together with the parser's
new state.  Note the raw-payload arm models `extend_from_slice`: it appends
the raw bytes after the (resized) existing buffer contents.  On a
decompression error the Rust buffer may have been partially overwritten
through the `&mut [u8]`; its contents are modelled as unchanged, and no claim
depends on them. -/
def BlockParser.parse_block {H P : Type}
    (decodeBlob : Bytes → Except String Blob)
    (decompress : DecompressorFn)
    (decodeHeaderBlock : Bytes → Except String H)
    (decodePrimitiveBlock : Bytes → Except String P)
    (self : BlockParser) (raw_block : RawBlock) :
    Except Error (Block H P) × BlockParser :=
  match decodeBlob raw_block.data with
  | Except.error e => (Except.error (Error.PbfParseError e), self)
  | Except.ok blob =>
    -- `uncompressed_size as usize`: negative values would wrap to a huge
    -- length in Rust; claims only exercise non-negative sizes, modelled with
    -- `Int.toNat`.
    let buf0 : Bytes :=
      match blob.raw_size with
      | some uncompressed_size => resize_with self.block_buffer uncompressed_size.toNat
      | none => self.block_buffer
    let filled : Except Error Bytes :=
      match blob.data with
      | some (BlobData.Raw raw_data) => Except.ok (buf0 ++ raw_data)
      | some (BlobData.ZlibData zlib_data) =>
        match decompress CompressionMethod.Zlib zlib_data buf0 with
        | Except.error e => Except.error (Error.DecompressionError e)
        | Except.ok buf => Except.ok buf
      | some (BlobData.Lz4Data lz4_data) =>
        match decompress CompressionMethod.Lz4 lz4_data buf0 with
        | Except.error e => Except.error (Error.DecompressionError e)
        | Except.ok buf => Except.ok buf
      | some (BlobData.LzmaData lzma_data) =>
        match decompress CompressionMethod.Lzma lzma_data buf0 with
        | Except.error e => Except.error (Error.DecompressionError e)
        | Except.ok buf => Except.ok buf
      | some (BlobData.ZstdData zstd_data) =>
        match decompress CompressionMethod.Zstd zstd_data buf0 with
        | Except.error e => Except.error (Error.DecompressionError e)
        | Except.ok buf => Except.ok buf
      | some (BlobData.ObsoleteBzip2Data _) => Except.error Error.InvalidBlobData
      | none => Except.error Error.InvalidBlobData
    match filled with
    | Except.error e => (Except.error e, { block_buffer := buf0 })
    | Except.ok buf1 =>
      match raw_block.type with
      | BlockType.Header =>
        match decodeHeaderBlock buf1 with
        | Except.ok header_block => (Except.ok (Block.Header header_block), { block_buffer := buf1 })
        | Except.error e => (Except.error (Error.PbfParseError e), { block_buffer := buf1 })
      | BlockType.Primitive =>
        match decodePrimitiveBlock buf1 with
        | Except.ok primitive_block => (Except.ok (Block.Primitive primitive_block), { block_buffer := buf1 })
        | Except.error e => (Except.error (Error.PbfParseError e), { block_buffer := buf1 })
      | BlockType.Unknown => (Except.ok (Block.Unknown buf1), { block_buffer := buf1 })

/-- Generic fuel-indexed runner for the iterator models: collects yielded
items until the step function yields `none` or the fuel runs out. -/
def runIter {σ α : Type} (step : σ → Option α × σ) : Nat → σ → List α
  | 0, _ => []
  | fuel + 1, s =>
    match step s with
    | (some a, s2) => a :: runIter step fuel s2
    | (none, _) => []

/-- Modelled from the spec: the generated `pbf::StringTable` message (not
under `src/`): a 0-indexed list of byte strings (field `s`). -/
structure StringTable where
  s : List Bytes
  deriving DecidableEq

/-- Whether a continuation byte is well-formed (`0x80..=0xBF`). -/
def utf8_cont (b : Nat) : Bool := 0x80 ≤ b && b ≤ 0xBF

/-- UTF-8 validity of a byte sequence, as checked by Rust's
`str::from_utf8` (external standard library): shortest-form encodings only,
no surrogates, maximum code point `U+10FFFF`. -/
def utf8_is_valid : Bytes → Bool
  | [] => true
  | b :: rest =>
    if b ≤ 0x7F then utf8_is_valid rest
    else
      match rest with
      | [] => false
      | c :: rest2 =>
        if 0xC2 ≤ b ∧ b ≤ 0xDF then utf8_cont c && utf8_is_valid rest2
        else
          match rest2 with
          | [] => false
          | d :: rest3 =>
            if b = 0xE0 then (0xA0 ≤ c && c ≤ 0xBF) && utf8_cont d && utf8_is_valid rest3
            else if (0xE1 ≤ b && b ≤ 0xEC) || b = 0xEE || b = 0xEF then
              utf8_cont c && utf8_cont d && utf8_is_valid rest3
            else if b = 0xED then (0x80 ≤ c && c ≤ 0x9F) && utf8_cont d && utf8_is_valid rest3
            else
              match rest3 with
              | [] => false
              | e :: rest4 =>
                if b = 0xF0 then
                  (0x90 ≤ c && c ≤ 0xBF) && utf8_cont d && utf8_cont e && utf8_is_valid rest4
                else if 0xF1 ≤ b ∧ b ≤ 0xF3 then
                  utf8_cont c && utf8_cont d && utf8_cont e && utf8_is_valid rest4
                else if b = 0xF4 then
                  (0x80 ≤ c && c ≤ 0x8F) && utf8_cont d && utf8_cont e && utf8_is_valid rest4
                else false

/-- `str::from_utf8`: a `&str` is its underlying bytes, so success carries
the byte list; the `Utf8Error` payload is opaque and modelled as `Unit`. -/
def str_from_utf8 (bytes : Bytes) : Except Unit Bytes :=
  if utf8_is_valid bytes then Except.ok bytes else Except.error ()

/-- `ChunksExact<'a, i32>` with chunk size 2, precomputed: adjacent disjoint
pairs, any trailing odd element dropped (`chunks_exact(2)` in
`DenseTagReader::new`). -/
def chunks_exact2 : List Int → List (Int × Int)
  | a :: b :: rest => (a, b) :: chunks_exact2 rest
  | _ => []

/-- `DenseTagReader` state in `lib.rs`: the string table plus the remaining
chunk iterator. -/
structure DenseTagReader where
  string_table : StringTable
  indices_it : List (Int × Int)
  deriving DecidableEq

/-- `DenseTagReader::new` in `lib.rs`. -/
def DenseTagReader.new (string_table : StringTable) (key_value_indices : List Int) :
    DenseTagReader :=
  { string_table := string_table, indices_it := chunks_exact2 key_value_indices }

/-- The `decode_string` closure inside `DenseTagReader::next`: a negative
index fails the `TryInto<usize>` conversion; an in-range index is looked up
and validated as UTF-8. -/
def decode_string (string_table : StringTable) (index : Int) : Except Error Bytes :=
  if 0 ≤ index then
    match string_table.s.get? index.toNat with
    | some bytes =>
      if utf8_is_valid bytes then Except.ok bytes
      else
        Except.error (Error.LogicError
          ("string at index " ++ toString index ++ " is not valid UTF-8"))
    | none =>
      Except.error (Error.LogicError
        ("string table index " ++ toString index ++ " is out of bounds (" ++
          toString string_table.s.length ++ ")"))
  else
    Except.error (Error.LogicError
      ("string table index " ++ toString index ++ " is invalid"))

/-- `DenseTagReader::next` in `lib.rs`: one (key, value) pair per remaining
index chunk, each half decoded independently. -/
def DenseTagReader.next (r : DenseTagReader) :
    Option (Except Error Bytes × Except Error Bytes) × DenseTagReader :=
  match r.indices_it with
  | indices :: rest =>
    (some (decode_string r.string_table indices.1, decode_string r.string_table indices.2),
      { r with indices_it := rest })
  | [] => (none, r)

/-- `TagReader` state in `lib.rs`: the two parallel index arrays (`u32`
indices, hence `Nat`), the string table and the cursor `idx`. -/
structure TagReader where
  string_table : StringTable
  key_indices : List Nat
  value_indices : List Nat
  idx : Nat
  deriving DecidableEq

/-- `TagReader::new` in `lib.rs`. -/
def TagReader.new (key_indices value_indices : List Nat) (string_table : StringTable) :
    TagReader :=
  { string_table := string_table, key_indices := key_indices,
    value_indices := value_indices, idx := 0 }

/-- `TagReader::next` in `lib.rs`.  The Rust source indexes
`string_table.s[...]` and `value_indices[idx]` directly, which panics out of
bounds; the model uses `getD` and is therefore only consulted under the
in-bounds / equal-length hypotheses the claims provide. -/
def TagReader.next (r : TagReader) :
    Option (Except Unit Bytes × Except Unit Bytes) × TagReader :=
  if r.idx < r.key_indices.length then
    let key := str_from_utf8 (r.string_table.s.getD (r.key_indices.getD r.idx 0) [])
    let value := str_from_utf8 (r.string_table.s.getD (r.value_indices.getD r.idx 0) [])
    (some (key, value), { r with idx := r.idx + 1 })
  else (none, r)

/-- Modelled from the spec: the generated `pbf::DenseInfo` message (not under
`src/`), with the per-node metadata arrays `DenseNodeReader` accesses. -/
structure DenseInfo where
  version : List Int
  timestamp : List Int
  changeset : List Int
  uid : List Int
  user_sid : List Int
  visible : List Bool
  deriving DecidableEq

/-- Modelled from the spec: the generated `pbf::DenseNodes` message (not
under `src/`), with the parallel delta-coded arrays, the shared tag-index
array and the optional metadata record. -/
structure DenseNodes where
  id : List Int
  lat : List Int
  lon : List Int
  keys_vals : List Int
  denseinfo : Option DenseInfo
  deriving DecidableEq

/-- Modelled from the spec: the generated `pbf::Info` record (not under
`src/`) as populated by `DenseNodeReader::next` (`user_sid` is the
accumulated unsigned value). -/
structure Info where
  version : Option Int
  timestamp : Option Int
  changeset : Option Int
  uid : Option Int
  user_sid : Option Nat
  visible : Option Bool
  deriving DecidableEq

/-- An unpacked dense node (`DenseNode` in `lib.rs`). -/
structure DenseNode where
  id : Int
  lat : Int
  lon : Int
  info : Option Info
  key_value_indices : List Int
  deriving DecidableEq

/-- Running totals of the delta-coded fields (`DeltaCodedValues` in
`lib.rs`); `user_sid` is a `u32`, modelled as `Nat`.  All fields default to
zero (`#[derive(Default)]`). -/
structure DeltaCodedValues where
  id : Int := 0
  lat : Int := 0
  lon : Int := 0
  timestamp : Int := 0
  changeset : Int := 0
  uid : Int := 0
  user_sid : Nat := 0
  deriving DecidableEq

/-- `DenseNodeReader` state in `lib.rs`: the dense-node group, the position
of the `Enumerate<Zip<..>>` iterator, the tag-index cursor and the running
accumulator. -/
structure DenseNodeReader where
  data : DenseNodes
  pos : Nat
  key_value_idx : Nat
  current : DeltaCodedValues
  deriving DecidableEq

/-- The `format!` message of the id/lat/lon length-mismatch `LogicError` in
`DenseNodeReader::new`. -/
def mismatch_msg (ids lats lons : Nat) : String :=
  "dense node id/lat/lon counts differ: " ++ toString ids ++ "/" ++ toString lats ++
    "/" ++ toString lons

/-- `DenseNodeReader::new` in `lib.rs`: fails iff the id/lat/lon array
lengths are not all equal. -/
def DenseNodeReader.new (data : DenseNodes) : Except Error DenseNodeReader :=
  if data.lat.length ≠ data.id.length ∨ data.lon.length ≠ data.id.length then
    Except.error (Error.LogicError
      (mismatch_msg data.id.length data.lat.length data.lon.length))
  else
    Except.ok { data := data, pos := 0, key_value_idx := 0, current := {} }

/-- `u32::checked_add_signed`: `some` iff the exact sum fits in a `u32`. -/
def checked_add_signed (a : Nat) (delta : Int) : Option Nat :=
  if 0 ≤ (a : Int) + delta ∧ (a : Int) + delta < 2 ^ 32 then some ((a : Int) + delta).toNat
  else none

/-- The `format!` message of the `user_sid` underflow `LogicError` in
`DenseNodeReader::next`. -/
def user_sid_msg (cur : Nat) (delta : Int) : String :=
  "delta decoding user_sid results in a negative integer: " ++ toString cur ++ "+" ++
    toString delta

/-- `delta_decode` in `lib.rs` (the `&mut T` accumulator becomes explicit
state: result together with the new accumulator value). -/
def delta_decode (current : Int) (delta : Option Int) : Option Int × Int :=
  match delta with
  | some d => (some (current + d), current + d)
  | none => (none, current)

/-- `keys_vals[cursor..].iter().enumerate().step_by(2).find(|v| **v == 0)`:
the offset (0, 2, 4, …) of the first zero at an even offset, if any. -/
def find_step2_zero : List Int → Option Nat
  | [] => none
  | x :: rest =>
    if x = 0 then some 0
    else
      match rest with
      | [] => none
      | _ :: rest2 => (find_step2_zero rest2).map (fun off => off + 2)

/-- The tag-index slicing step of `DenseNodeReader::next` for a non-empty
shared array: this node's slice `keys_vals[cursor..next_zero_idx]` and the
new cursor `next_zero_idx + 1`. -/
def key_value_slice (keys_vals : List Int) (key_value_idx : Nat) : List Int × Nat :=
  let next_zero_idx : Nat :=
    match find_step2_zero (keys_vals.drop key_value_idx) with
    | some off => key_value_idx + off
    | none => keys_vals.length
  ((keys_vals.drop key_value_idx).take (next_zero_idx - key_value_idx), next_zero_idx + 1)

/-- Tail of `DenseNodeReader::next` in `lib.rs`: compute the node's tag-index
slice (empty, with the cursor untouched, when the shared array is empty) and
yield the node.  The Rust slice expression `&keys_vals[cursor..]` panics when
`cursor > len` (reachable only when the last run has no terminating zero and
more nodes remain); the model's `List.drop` is total, and no claim exercises
that state. -/
def DenseNodeReader.finish_step (r : DenseNodeReader) (cur : DeltaCodedValues)
    (info : Option Info) : Option (Except Error DenseNode) × DenseNodeReader :=
  let sliced : List Int × Nat :=
    if r.data.keys_vals ≠ [] then key_value_slice r.data.keys_vals r.key_value_idx
    else ([], r.key_value_idx)
  (some (Except.ok
      { id := cur.id, lat := cur.lat, lon := cur.lon, info := info,
        key_value_indices := sliced.1 }),
    { r with pos := r.pos + 1, current := cur, key_value_idx := sliced.2 })

/-- `DenseNodeReader::next` in `lib.rs`.  The zipped iterator yields while
`pos` is below the minimum of the three array lengths (equal by
construction, but the state is modelled for arbitrary values).  On a
`user_sid` underflow the element has already been consumed and id/lat/lon
accumulated, so the error state advances `pos` and keeps everything else
(including the tag cursor and the metadata accumulators) untouched. -/
def DenseNodeReader.next (r : DenseNodeReader) :
    Option (Except Error DenseNode) × DenseNodeReader :=
  let n := min r.data.id.length (min r.data.lat.length r.data.lon.length)
  if r.pos < n then
    let data_idx := r.pos
    let cur1 : DeltaCodedValues :=
      { r.current with
        id := r.current.id + r.data.id.getD data_idx 0,
        lat := r.current.lat + r.data.lat.getD data_idx 0,
        lon := r.current.lon + r.data.lon.getD data_idx 0 }
    match r.data.denseinfo with
    | some dense_info =>
      match dense_info.user_sid.get? data_idx with
      | some user_sid_delta =>
        match checked_add_signed cur1.user_sid user_sid_delta with
        | some current_user_sid =>
          let (timestamp, ts2) := delta_decode cur1.timestamp (dense_info.timestamp.get? data_idx)
          let (changeset, cs2) := delta_decode cur1.changeset (dense_info.changeset.get? data_idx)
          let (uid, uid2) := delta_decode cur1.uid (dense_info.uid.get? data_idx)
          let info : Info :=
            { version := dense_info.version.get? data_idx,
              timestamp := timestamp, changeset := changeset, uid := uid,
              user_sid := some current_user_sid,
              visible := dense_info.visible.get? data_idx }
          DenseNodeReader.finish_step r
            { cur1 with
              user_sid := current_user_sid, timestamp := ts2,
              changeset := cs2, uid := uid2 } (some info)
        | none =>
          (some (Except.error (Error.LogicError (user_sid_msg cur1.user_sid user_sid_delta))),
            { r with pos := r.pos + 1, current := cur1 })
      | none =>
        let (timestamp, ts2) := delta_decode cur1.timestamp (dense_info.timestamp.get? data_idx)
        let (changeset, cs2) := delta_decode cur1.changeset (dense_info.changeset.get? data_idx)
        let (uid, uid2) := delta_decode cur1.uid (dense_info.uid.get? data_idx)
        let info : Info :=
          { version := dense_info.version.get? data_idx,
            timestamp := timestamp, changeset := changeset, uid := uid,
            user_sid := none,
            visible := dense_info.visible.get? data_idx }
        DenseNodeReader.finish_step r
          { cur1 with timestamp := ts2, changeset := cs2, uid := uid2 } (some info)
    | none => DenseNodeReader.finish_step r cur1 none
  else (none, r)

/-- `DeltaValueReader` state in `lib.rs`. -/
structure DeltaValueReader (T : Type) where
  remaining : List T
  accumulated : T
  deriving DecidableEq

/-- `DeltaValueReader::new` in `lib.rs`: the accumulator starts at
`T::default()` (zero for the numeric types used). -/
def DeltaValueReader.new {T : Type} [Inhabited T] (values : List T) : DeltaValueReader T :=
  { remaining := values, accumulated := default }

/-- `DeltaValueReader::next` in `lib.rs`: add the next delta to the
accumulator and yield the new total. -/
def DeltaValueReader.next {T : Type} [Add T] (r : DeltaValueReader T) :
    Option T × DeltaValueReader T :=
  match r.remaining with
  | first :: elements =>
    (some (r.accumulated + first),
      { remaining := elements, accumulated := r.accumulated + first })
  | [] => (none, r)

/-- The spec's concrete dense-node example: id=[2,-1], lat=[-3,1],
lon=[3,-1], keys_vals=[1,2,0,3,4,0], user_sid deltas=[2147483647,1] (the
other metadata arrays empty, so those fields read as "not provided"). -/
def dense_nodes_c4 : DenseNodes :=
  { id := [2, -1], lat := [-3, 1], lon := [3, -1], keys_vals := [1, 2, 0, 3, 4, 0],
    denseinfo := some
      { version := [], timestamp := [], changeset := [], uid := [],
        user_sid := [2147483647, 1], visible := [] } }

/-- Three-node dense group whose second `user_sid` delta (-1) underflows,
with timestamp deltas [10, 20, 30] to observe whether the error step's
metadata deltas are applied. -/
def dense_nodes_skip : DenseNodes :=
  { id := [0, 0, 0], lat := [0, 0, 0], lon := [0, 0, 0], keys_vals := [],
    denseinfo := some
      { version := [], timestamp := [10, 20, 30], changeset := [], uid := [],
        user_sid := [0, -1, 0], visible := [] } }

/-- The same group as `dense_nodes_skip` with a benign second `user_sid`
delta, i.e. the run "as if the error had not occurred". -/
def dense_nodes_noerr : DenseNodes :=
  { id := [0, 0, 0], lat := [0, 0, 0], lon := [0, 0, 0], keys_vals := [],
    denseinfo := some
      { version := [], timestamp := [10, 20, 30], changeset := [], uid := [],
        user_sid := [0, 1, 0], visible := [] } }

/-- A one-node dense group whose single `user_sid` delta (-1) underflows at
the first step. -/
def dense_nodes_underflow0 : DenseNodes :=
  { id := [0], lat := [0], lon := [0], keys_vals := [],
    denseinfo := some
      { version := [], timestamp := [], changeset := [], uid := [],
        user_sid := [-1], visible := [] } }

/-- Expected first node of the `dense_nodes_c4` run. -/
def c4_node1 : DenseNode :=
  { id := 2, lat := -3, lon := 3,
    info := some
      { version := none, timestamp := none, changeset := none, uid := none,
        user_sid := some 2147483647, visible := none },
    key_value_indices := [1, 2] }

/-- Expected second node of the `dense_nodes_c4` run. -/
def c4_node2 : DenseNode :=
  { id := 1, lat := -2, lon := 2,
    info := some
      { version := none, timestamp := none, changeset := none, uid := none,
        user_sid := some 2147483648, visible := none },
    key_value_indices := [3, 4] }

/-- A node of the all-zero id/lat/lon groups with the given accumulated
timestamp and `user_sid` (the other metadata arrays being empty). -/
def zero_node (ts : Int) (sid : Nat) : DenseNode :=
  { id := 0, lat := 0, lon := 0,
    info := some
      { version := none, timestamp := some ts, changeset := none, uid := none,
        user_sid := some sid, visible := none },
    key_value_indices := [] }

/-- The reader state after the first (successful) step over
`dense_nodes_skip`: position 1, timestamp accumulator 10, all else zero. -/
def dense_skip_state1 : DenseNodeReader :=
  { data := dense_nodes_skip, pos := 1, key_value_idx := 0,
    current := { id := 0, lat := 0, lon := 0, timestamp := 10, changeset := 0,
                 uid := 0, user_sid := 0 } }

/-! ## Helper lemmas -/

theorem readExact_eq_some {n : Nat} {s : Bytes} (h : n ≤ s.length) :
    readExact n s = some (s.take n, s.drop n) := by
  simp [readExact, h]

theorem readExact_eq_none {n : Nat} {s : Bytes} (h : s.length < n) :
    readExact n s = none := by
  simp only [readExact, ite_eq_right_iff]
  omega

theorem read_blob_eq_frame (dec : Bytes → Except String BlobHeader) {s : Bytes}
    (h : 4 ≤ s.length) :
    read_blob dec s =
      some (read_blob_frame dec (i32_from_be_bytes (s.take 4)) (s.drop 4)) := by
  rw [read_blob, readExact_eq_some h]

theorem read_blob_payload_ne_invalid_header (hdr : BlobHeader) (rest2 : Bytes) :
    read_blob_payload hdr rest2 ≠ Except.error Error.InvalidBlobHeader := by
  simp only [read_blob_payload]
  split
  · simp
  · split <;> simp

theorem read_blob_payload_invalid_data_iff (hdr : BlobHeader) (rest2 : Bytes) :
    read_blob_payload hdr rest2 = Except.error Error.InvalidBlobData ↔
      ¬ (0 ≤ hdr.datasize ∧ hdr.datasize < 32 * 1024 * 1024) := by
  simp only [read_blob_payload]
  split
  · simp_all
  · split <;> simp_all

theorem read_blob_frame_invalid_header_iff (dec : Bytes → Except String BlobHeader)
    (N : Int) (rest : Bytes) :
    read_blob_frame dec N rest = Except.error Error.InvalidBlobHeader ↔
      ¬ (0 ≤ N ∧ N < 64 * 1024) := by
  unfold read_blob_frame
  split
  · simp_all
  · rename_i hcond
    rw [not_not] at hcond
    split
    · simp_all
    · split
      · simp_all
      · exact iff_of_false (read_blob_payload_ne_invalid_header _ _) (not_not_intro hcond)

theorem read_blob_frame_eq_payload (dec : Bytes → Except String BlobHeader)
    {N : Int} {rest : Bytes} {hdr : BlobHeader}
    (hrange : 0 ≤ N ∧ N < 64 * 1024) (havail : N.toNat ≤ rest.length)
    (hdec : dec (rest.take N.toNat) = Except.ok hdr) :
    read_blob_frame dec N rest = read_blob_payload hdr (rest.drop N.toNat) := by
  unfold read_blob_frame
  rw [if_neg (not_not_intro hrange), readExact_eq_some havail]
  simp only [hdec]

theorem read_blob_payload_short_read (hdr : BlobHeader) {rest2 : Bytes}
    (hds : 0 ≤ hdr.datasize ∧ hdr.datasize < 32 * 1024 * 1024)
    (hshort : rest2.length < hdr.datasize.toNat) :
    read_blob_payload hdr rest2 = Except.error Error.IoError := by
  unfold read_blob_payload
  rw [if_neg (not_not_intro hds), readExact_eq_none hshort]

/-! ## Claims -/

/-- C1 (corrected).  The original claim — `read_blob` returns the `None`
end-of-stream sentinel only when zero bytes were available, a 1–3-byte
partial length prefix yielding `IoError` — fails (see the counterexample):
Rust's `read_exact` reports `UnexpectedEof` for any read shorter than 4
bytes, and `read_blob` maps that first-read error to `None`.  Amended:
`read_blob` returns `None` exactly when fewer than 4 bytes (0–3, i.e. any
truncation inside the length prefix) were available; a short read of the
header bytes or of the payload bytes at any later stage yields `IoError`,
never the clean end-of-stream sentinel. -/
theorem c1_read_blob_end_of_stream (dec : Bytes → Except String BlobHeader) (s : Bytes) :
    (read_blob dec s = none ↔ s.length < 4) ∧
    (∀ (_h4 : 4 ≤ s.length)
      (_hrange : 0 ≤ i32_from_be_bytes (s.take 4) ∧ i32_from_be_bytes (s.take 4) < 64 * 1024)
      (_hshort : (s.drop 4).length < (i32_from_be_bytes (s.take 4)).toNat),
      read_blob dec s = some (Except.error Error.IoError)) ∧
    (∀ (hdr : BlobHeader) (_h4 : 4 ≤ s.length)
      (_hrange : 0 ≤ i32_from_be_bytes (s.take 4) ∧ i32_from_be_bytes (s.take 4) < 64 * 1024)
      (_havail : (i32_from_be_bytes (s.take 4)).toNat ≤ (s.drop 4).length)
      (_hdec : dec ((s.drop 4).take (i32_from_be_bytes (s.take 4)).toNat) = Except.ok hdr)
      (_hds : 0 ≤ hdr.datasize ∧ hdr.datasize < 32 * 1024 * 1024)
      (_hshort : ((s.drop 4).drop (i32_from_be_bytes (s.take 4)).toNat).length <
        hdr.datasize.toNat),
      read_blob dec s = some (Except.error Error.IoError)) := by
  refine ⟨?_, ?_, ?_⟩
  · constructor
    · intro h
      by_contra hlen
      rw [read_blob_eq_frame dec (by omega)] at h
      exact Option.noConfusion h
    · intro h
      rw [read_blob, readExact_eq_none h]
  · intro h4 hrange hshort
    rw [read_blob_eq_frame dec h4]
    unfold read_blob_frame
    rw [if_neg (not_not_intro hrange), readExact_eq_none hshort]
  · intro hdr h4 hrange havail hdec hds hshort
    rw [read_blob_eq_frame dec h4, read_blob_frame_eq_payload dec hrange havail hdec,
      read_blob_payload_short_read hdr hds hshort]

/-- C1 witness: a stream with only 1 byte of the length prefix ([0,0,0,1]
truncated after the prefix exercises the header-stage short read; [0,0,0,0]
with a declared payload size of 1 and no payload bytes exercises the
payload-stage short read). -/
theorem c1_read_blob_end_of_stream_witness :
    4 ≤ ([0, 0, 0, 1] : Bytes).length ∧
    read_blob decFail [0, 0, 0, 1] = some (Except.error Error.IoError) ∧
    read_blob (decConst "x" 1) [0, 0, 0, 0] = some (Except.error Error.IoError) :=
  ⟨by decide,
   (c1_read_blob_end_of_stream decFail [0, 0, 0, 1]).2.1 (by decide) (by decide) (by decide),
   (c1_read_blob_end_of_stream (decConst "x" 1) [0, 0, 0, 0]).2.2 ⟨"x", 1⟩ (by decide)
     (by decide) (by decide) rfl (by decide) (by decide)⟩

/-- C1 counterexample: on the 1-byte stream `[0]` one byte of the length
prefix was available, yet `read_blob` returns the clean end-of-stream
sentinel `none` instead of the `IoError` the claim requires. -/
theorem c1_counterexample :
    read_blob decFail [0] = none ∧ ([0] : Bytes) ≠ [] :=
  ⟨rfl, by decide⟩

/-- C5: `read_blob` returns `InvalidBlobHeader` exactly when the 4-byte
big-endian signed length is outside `[0, 65536)` (in particular at 65536 and
for every negative value), and `InvalidBlobData` exactly when the decoded
blob header's declared `datasize` is outside `[0, 33554432)`; each check is
made on the bare size value before the bytes it would size are read. -/
theorem c5_read_blob_size_bounds (dec : Bytes → Except String BlobHeader) (s : Bytes)
    (h4 : 4 ≤ s.length) :
    (read_blob dec s = some (Except.error Error.InvalidBlobHeader) ↔
      ¬ (0 ≤ i32_from_be_bytes (s.take 4) ∧ i32_from_be_bytes (s.take 4) < 64 * 1024)) ∧
    (∀ (hdr : BlobHeader)
      (_hrange : 0 ≤ i32_from_be_bytes (s.take 4) ∧ i32_from_be_bytes (s.take 4) < 64 * 1024)
      (_havail : (i32_from_be_bytes (s.take 4)).toNat ≤ (s.drop 4).length)
      (_hdec : dec ((s.drop 4).take (i32_from_be_bytes (s.take 4)).toNat) = Except.ok hdr),
      (read_blob dec s = some (Except.error Error.InvalidBlobData) ↔
        ¬ (0 ≤ hdr.datasize ∧ hdr.datasize < 32 * 1024 * 1024))) := by
  constructor
  · rw [read_blob_eq_frame dec h4]
    rw [Option.some_inj]
    exact read_blob_frame_invalid_header_iff dec _ _
  · intro hdr hrange havail hdec
    rw [read_blob_eq_frame dec h4, read_blob_frame_eq_payload dec hrange havail hdec,
      Option.some_inj]
    exact read_blob_payload_invalid_data_iff hdr _

/-- C5 witness: the exact boundary value 65536 (= bytes [0,1,0,0]) yields
`InvalidBlobHeader`, a negative length ([128,0,0,0] = -2^31) likewise, and a
decoded header declaring exactly 33554432 payload bytes yields
`InvalidBlobData`. -/
theorem c5_read_blob_size_bounds_witness :
    4 ≤ ([0, 1, 0, 0] : Bytes).length ∧
    read_blob decFail [0, 1, 0, 0] = some (Except.error Error.InvalidBlobHeader) ∧
    read_blob decFail [128, 0, 0, 0] = some (Except.error Error.InvalidBlobHeader) ∧
    read_blob (decConst "x" (32 * 1024 * 1024)) [0, 0, 0, 0] =
      some (Except.error Error.InvalidBlobData) :=
  ⟨by decide,
   (c5_read_blob_size_bounds decFail [0, 1, 0, 0] (by decide)).1.mpr (by decide),
   (c5_read_blob_size_bounds decFail [128, 0, 0, 0] (by decide)).1.mpr (by decide),
   ((c5_read_blob_size_bounds (decConst "x" (32 * 1024 * 1024)) [0, 0, 0, 0]
       (by decide)).2 ⟨"x", 32 * 1024 * 1024⟩ (by decide) (by decide) rfl).mpr (by decide)⟩

/-- C2 (code bug).  The claim (and the spec's step 3, "raw ⇒ copy verbatim
into the buffer", clearly the intent — otherwise the subsequent structured
decode parses a zero prefix) fails: the raw arm uses `extend_from_slice`,
which APPENDS the payload after the freshly resized buffer.  At the failing
input below — empty previous buffer, declared uncompressed size 2, raw
payload [5, 6] — the buffer handed onward is [0, 0, 5, 6], not [5, 6]; with
a non-empty previous buffer [9, 9] and declared size 1 the leftover byte
survives as [9, 5]. -/
theorem c2_parse_block_raw_extend :
    BlockParser.parse_block
        (fun _ => Except.ok { raw_size := some 2, data := some (BlobData.Raw [5, 6]) })
        default_decompress (fun _ => Except.ok ()) (fun _ => Except.ok ())
        { block_buffer := [] } { type := BlockType.Unknown, data := [] } =
      (Except.ok (Block.Unknown [0, 0, 5, 6]), { block_buffer := [0, 0, 5, 6] }) ∧
    ([0, 0, 5, 6] : Bytes) ≠ [5, 6] ∧
    BlockParser.parse_block
        (fun _ => Except.ok { raw_size := some 1, data := some (BlobData.Raw [5]) })
        default_decompress (fun _ => Except.ok ()) (fun _ => Except.ok ())
        { block_buffer := [9, 9] } { type := BlockType.Unknown, data := [] } =
      (Except.ok (Block.Unknown [9, 5]), { block_buffer := [9, 5] }) ∧
    ([9, 5] : Bytes) ≠ [5] :=
  ⟨rfl, by decide, rfl, by decide⟩

/-- C6: a blob whose payload is the legacy/obsolete bzip2 variant makes
`parse_block` return `InvalidBlobData` for every installed decompressor (the
result, including the buffer state, does not depend on `decompress`, which
is never invoked for this arm), and a blob with no payload variant does the
same. -/
theorem c6_parse_block_obsolete_and_missing {H P : Type}
    (decodeBlob : Bytes → Except String Blob) (decompress : DecompressorFn)
    (decodeHeaderBlock : Bytes → Except String H)
    (decodePrimitiveBlock : Bytes → Except String P)
    (self : BlockParser) (raw_block : RawBlock) (blob : Blob)
    (hdec : decodeBlob raw_block.data = Except.ok blob) :
    (∀ bytes, blob.data = some (BlobData.ObsoleteBzip2Data bytes) →
      BlockParser.parse_block decodeBlob decompress decodeHeaderBlock decodePrimitiveBlock
          self raw_block =
        (Except.error Error.InvalidBlobData,
          { block_buffer :=
              match blob.raw_size with
              | some uncompressed_size => resize_with self.block_buffer uncompressed_size.toNat
              | none => self.block_buffer })) ∧
    (blob.data = none →
      BlockParser.parse_block decodeBlob decompress decodeHeaderBlock decodePrimitiveBlock
          self raw_block =
        (Except.error Error.InvalidBlobData,
          { block_buffer :=
              match blob.raw_size with
              | some uncompressed_size => resize_with self.block_buffer uncompressed_size.toNat
              | none => self.block_buffer })) := by
  constructor
  · intro bytes hdata
    cases hrs : blob.raw_size <;>
      simp [BlockParser.parse_block, hdec, hdata, hrs]
  · intro hdata
    cases hrs : blob.raw_size <;>
      simp [BlockParser.parse_block, hdec, hdata, hrs]

/-- C6 witness: concrete bzip2 and missing-variant blobs, with the
all-rejecting default decompressor installed. -/
theorem c6_parse_block_obsolete_and_missing_witness :
    BlockParser.parse_block
        (fun _ => Except.ok { raw_size := none, data := some (BlobData.ObsoleteBzip2Data [1]) })
        default_decompress (fun _ => Except.ok ()) (fun _ => Except.ok ())
        { block_buffer := [] } { type := BlockType.Header, data := [] } =
      (Except.error Error.InvalidBlobData, { block_buffer := [] }) ∧
    BlockParser.parse_block
        (fun _ => Except.ok { raw_size := some 1, data := none })
        default_decompress (fun _ => Except.ok ()) (fun _ => Except.ok ())
        { block_buffer := [] } { type := BlockType.Primitive, data := [] } =
      (Except.error Error.InvalidBlobData, { block_buffer := [0] }) :=
  ⟨(c6_parse_block_obsolete_and_missing _ default_decompress _ _ _ _ _ rfl).1 [1] rfl,
   (c6_parse_block_obsolete_and_missing _ default_decompress _ _ _ _ _ rfl).2 rfl⟩

/-- One unfolding step of the delta-value run. -/
theorem delta_run_cons (a d : Int) (rest : List Int) (fuel : Nat) :
    runIter DeltaValueReader.next (fuel + 1) { remaining := d :: rest, accumulated := a } =
      (a + d) :: runIter DeltaValueReader.next fuel
        { remaining := rest, accumulated := a + d } :=
  rfl

/-- The delta-value run from accumulator `a` has one output per input delta. -/
theorem delta_run_length (l : List Int) :
    ∀ (a : Int) (fuel : Nat), l.length ≤ fuel →
      (runIter DeltaValueReader.next fuel { remaining := l, accumulated := a }).length =
        l.length := by
  induction l with
  | nil =>
    intro a fuel _
    cases fuel <;> simp [runIter, DeltaValueReader.next]
  | cons d rest ih =>
    intro a fuel hf
    cases fuel with
    | zero => simp at hf
    | succ f =>
      rw [delta_run_cons]
      simp only [List.length_cons]
      rw [ih (a + d) f (by simpa using hf)]

/-- The `i`-th output of the delta-value run from accumulator `a` is `a`
plus the sum of the first `i + 1` deltas. -/
theorem delta_run_get (l : List Int) :
    ∀ (a : Int) (fuel i : Nat), l.length ≤ fuel → i < l.length →
      (runIter DeltaValueReader.next fuel { remaining := l, accumulated := a }).get? i =
        some (a + (l.take (i + 1)).sum) := by
  induction l with
  | nil => intro a fuel i _ hi; simp at hi
  | cons d rest ih =>
    intro a fuel i hf hi
    cases fuel with
    | zero => simp at hf
    | succ f =>
      rw [delta_run_cons]
      cases i with
      | zero => simp
      | succ i2 =>
        simp only [List.get?_cons_succ]
        rw [ih (a + d) f i2 (by simpa using hf) (by simpa using hi)]
        simp [add_assoc]

/-- C9: the delta value reader started from the default (zero) accumulator
yields at position `i` the sum of `deltas[0..=i]`, ends exactly when the
input is exhausted, and on [10, -1, 4, -2] yields [10, 9, 13, 11]. -/
theorem c9_delta_value_reader (l : List Int) (fuel : Nat) (hf : l.length ≤ fuel) :
    ((runIter DeltaValueReader.next fuel (DeltaValueReader.new l)).length = l.length ∧
      ∀ i, i < l.length →
        (runIter DeltaValueReader.next fuel (DeltaValueReader.new l)).get? i =
          some ((l.take (i + 1)).sum)) ∧
    runIter DeltaValueReader.next 4 (DeltaValueReader.new ([10, -1, 4, -2] : List Int)) =
      [10, 9, 13, 11] := by
  refine ⟨⟨delta_run_length l 0 fuel hf, fun i hi => ?_⟩, rfl⟩
  rw [show DeltaValueReader.new l = { remaining := l, accumulated := 0 } from rfl,
    delta_run_get l 0 fuel i hf hi, zero_add]

/-- C9 witness at the spec's concrete deltas. -/
theorem c9_delta_value_reader_witness :
    ([10, -1, 4, -2] : List Int).length ≤ 4 ∧
    (runIter DeltaValueReader.next 4 (DeltaValueReader.new ([10, -1, 4, -2] : List Int))).get? 2 =
      some (([10, -1, 4] : List Int).sum) :=
  ⟨by decide, (c9_delta_value_reader [10, -1, 4, -2] 4 (by decide)).1.2 2 (by decide)⟩

/-- The dense-tag run maps `decode_string` over the remaining chunks. -/
theorem dense_tag_run (st : StringTable) (chunks : List (Int × Int)) :
    ∀ (fuel : Nat), chunks.length ≤ fuel →
      runIter DenseTagReader.next fuel { string_table := st, indices_it := chunks } =
        chunks.map (fun p => (decode_string st p.1, decode_string st p.2)) := by
  induction chunks with
  | nil => intro fuel _; cases fuel <;> simp [runIter, DenseTagReader.next]
  | cons p rest ih =>
    intro fuel hf
    cases fuel with
    | zero => simp at hf
    | succ f =>
      show (decode_string st p.1, decode_string st p.2) ::
          runIter DenseTagReader.next f { string_table := st, indices_it := rest } = _
      rw [ih f (by simpa using hf)]
      simp

/-- `chunks_exact(2)` of an odd-length list: the trailing element is
dropped, and exactly `k` chunks remain from `2 * k + 1` elements. -/
theorem chunks_exact2_odd (l : List Int) :
    ∀ (k : Nat), l.length = 2 * k + 1 →
      chunks_exact2 l = chunks_exact2 (l.take (2 * k)) ∧ (chunks_exact2 l).length = k := by
  induction l using chunks_exact2.induct with
  | case1 a b rest ih =>
    intro k hk
    cases k with
    | zero => simp at hk
    | succ k2 =>
      have hr : rest.length = 2 * k2 + 1 := by simp at hk; omega
      have := ih k2 hr
      constructor
      · show (a, b) :: chunks_exact2 rest = chunks_exact2 ((a :: b :: rest).take (2 * (k2 + 1)))
        have ht : (a :: b :: rest).take (2 * (k2 + 1)) = a :: b :: rest.take (2 * k2) := by
          rw [show 2 * (k2 + 1) = 2 * k2 + 1 + 1 from by omega]
          simp
        rw [ht]
        show (a, b) :: chunks_exact2 rest = (a, b) :: chunks_exact2 (rest.take (2 * k2))
        rw [this.1]
      · show (chunks_exact2 rest).length + 1 = k2 + 1
        rw [this.2]
  | case2 l hne =>
    intro k hk
    match l, hk with
    | [], hk => simp at hk
    | [x], hk =>
      have hk0 : k = 0 := by simp at hk; omega
      subst hk0
      simp [chunks_exact2]
    | a :: b :: rest, hk => exact (hne a b rest rfl).elim

/-- C10: for an odd-length key/value index slice of length `2k + 1`, the
dense tag reader yields exactly the pairs of the even-length prefix — `k`
pairs, the trailing index never resolved and never an error. -/
theorem c10_dense_tag_reader_odd (st : StringTable) (kv : List Int) (k fuel : Nat)
    (hodd : kv.length = 2 * k + 1) (hf : k ≤ fuel) :
    runIter DenseTagReader.next fuel (DenseTagReader.new st kv) =
      runIter DenseTagReader.next fuel (DenseTagReader.new st (kv.take (2 * k))) ∧
    (runIter DenseTagReader.next fuel (DenseTagReader.new st kv)).length = k := by
  have h := chunks_exact2_odd kv k hodd
  constructor
  · show runIter DenseTagReader.next fuel { string_table := st, indices_it := chunks_exact2 kv } =
      runIter DenseTagReader.next fuel
        { string_table := st, indices_it := chunks_exact2 (kv.take (2 * k)) }
    rw [h.1]
  · show (runIter DenseTagReader.next fuel
      { string_table := st, indices_it := chunks_exact2 kv }).length = k
    rw [dense_tag_run st _ fuel (by rw [h.2]; exact hf), List.length_map, h.2]

/-- C10 witness: `[1, 2, 3]` with a 4-entry string table yields exactly the
one pair of `[1, 2]`; index 3 is never looked up. -/
theorem c10_dense_tag_reader_odd_witness :
    ([1, 2, 3] : List Int).length = 2 * 1 + 1 ∧
    runIter DenseTagReader.next 1 (DenseTagReader.new { s := [[97], [98], [99], [100]] } [1, 2, 3]) =
      runIter DenseTagReader.next 1
        (DenseTagReader.new { s := [[97], [98], [99], [100]] } (([1, 2, 3] : List Int).take (2 * 1))) ∧
    (runIter DenseTagReader.next 1 (DenseTagReader.new { s := [[97], [98], [99], [100]] } [1, 2, 3])).length = 1 :=
  ⟨by decide,
   (c10_dense_tag_reader_odd { s := [[97], [98], [99], [100]] } [1, 2, 3] 1 1 (by decide) (by decide)).1,
   (c10_dense_tag_reader_odd { s := [[97], [98], [99], [100]] } [1, 2, 3] 1 1 (by decide) (by decide)).2⟩

/-- Unfolding step of `runIter`. -/
theorem runIter_succ {σ α : Type} (step : σ → Option α × σ) (fuel : Nat) (s : σ) :
    runIter step (fuel + 1) s =
      match step s with
      | (some a, s2) => a :: runIter step fuel s2
      | (none, _) => [] :=
  rfl

/-- The tag run from cursor `idx` with `n` positions left: one pair per
remaining key index, each half resolved and validated independently. -/
theorem tag_run_aux (st : StringTable) (keys vals : List Nat) :
    ∀ (n idx fuel : Nat), idx + n = keys.length → n ≤ fuel →
      runIter TagReader.next fuel
          { string_table := st, key_indices := keys, value_indices := vals, idx := idx } =
        (List.range' idx n).map (fun i =>
          (str_from_utf8 (st.s.getD (keys.getD i 0) []),
           str_from_utf8 (st.s.getD (vals.getD i 0) []))) := by
  intro n
  induction n with
  | zero =>
    intro idx fuel hlen _
    have hstop : ¬ idx < keys.length := by omega
    cases fuel with
    | zero => simp [runIter]
    | succ f => simp [runIter, TagReader.next, hstop]
  | succ n2 ih =>
    intro idx fuel hlen hf
    cases fuel with
    | zero => simp at hf
    | succ f =>
      have hlt : idx < keys.length := by omega
      rw [runIter_succ]
      simp only [TagReader.next, if_pos hlt]
      rw [ih (idx + 1) f (by omega) (by omega), List.range'_succ]
      simp

/-- C8: with equal-length in-bounds index arrays, the tag reader yields, in
order, one pair per index position, the `i`-th pair being the independent
UTF-8 validations of the string-table entries at the `i`-th key and value
indices, with iteration length governed by the key-index array. -/
theorem c8_tag_reader (st : StringTable) (keys vals : List Nat) (fuel : Nat)
    (_hlen : vals.length = keys.length)
    (_hkb : ∀ i ∈ keys, i < st.s.length) (_hvb : ∀ i ∈ vals, i < st.s.length)
    (hf : keys.length ≤ fuel) :
    runIter TagReader.next fuel (TagReader.new keys vals st) =
      (List.range keys.length).map (fun i =>
        (str_from_utf8 (st.s.getD (keys.getD i 0) []),
         str_from_utf8 (st.s.getD (vals.getD i 0) []))) ∧
    (runIter TagReader.next fuel (TagReader.new keys vals st)).length = keys.length := by
  have h := tag_run_aux st keys vals keys.length 0 fuel (by omega) hf
  unfold TagReader.new
  rw [List.range_eq_range']
  constructor
  · exact h
  · rw [h, List.length_map, List.length_range']

/-- C8 witness: key index 0 resolves to invalid UTF-8 ([255]) and fails,
while the value half of the same pair (index 1, "a") still succeeds. -/
theorem c8_tag_reader_witness :
    ([1] : List Nat).length = ([0] : List Nat).length ∧
    (∀ i ∈ ([0] : List Nat), i < (StringTable.mk [[255], [97]]).s.length) ∧
    (∀ i ∈ ([1] : List Nat), i < (StringTable.mk [[255], [97]]).s.length) ∧
    runIter TagReader.next 1 (TagReader.new [0] [1] (StringTable.mk [[255], [97]])) =
      [(Except.error (), Except.ok [97])] ∧
    (runIter TagReader.next 1 (TagReader.new [0] [1] (StringTable.mk [[255], [97]]))).length = 1 :=
  ⟨by decide, by decide, by decide,
   (c8_tag_reader (StringTable.mk [[255], [97]]) [0] [1] 1 (by decide) (by decide) (by decide)
      (by decide)).1,
   (c8_tag_reader (StringTable.mk [[255], [97]]) [0] [1] 1 (by decide) (by decide) (by decide)
      (by decide)).2⟩

/-- `getD` through `drop`. -/
theorem getD_drop (l : List Int) (c j : Nat) (d : Int) :
    (l.drop c).getD j d = l.getD (c + j) d := by
  simp [List.getD_eq_getElem?_getD, List.getElem?_drop]

/-- Correctness of the 2-wide-step zero scan: a `some` result is the first
even offset holding a zero; `none` means no even offset holds a zero. -/
theorem find_step2_zero_spec (l : List Int) :
    (∀ off, find_step2_zero l = some off →
      off % 2 = 0 ∧ off < l.length ∧ l.getD off 1 = 0 ∧
        ∀ j, j < off → j % 2 = 0 → l.getD j 1 ≠ 0) ∧
    (find_step2_zero l = none → ∀ j, j < l.length → j % 2 = 0 → l.getD j 1 ≠ 0) := by
  induction l using find_step2_zero.induct with
  | case1 =>
    constructor
    · intro off h
      rw [find_step2_zero.eq_def] at h
      simp at h
    · intro _ j hj _
      simp at hj
  | case2 rest2 =>
    constructor
    · intro off h
      have hoff : off = 0 := by
        rw [find_step2_zero.eq_def] at h
        simp at h
        omega
      subst hoff
      refine ⟨by omega, by simp, by simp, ?_⟩
      intro j hj _
      omega
    · intro h
      rw [find_step2_zero.eq_def] at h
      simp at h
  | case3 head hne =>
    constructor
    · intro off h
      rw [find_step2_zero.eq_def] at h
      simp [hne] at h
    · intro _ j hj _
      have hj0 : j = 0 := by simp at hj; omega
      subst hj0
      simpa using hne
  | case4 head hne head1 rest2 ih =>
    have hunf : find_step2_zero (head :: head1 :: rest2) =
        (find_step2_zero rest2).map (fun off => off + 2) := by
      rw [find_step2_zero.eq_def]
      simp [hne]
    constructor
    · intro off h
      rw [hunf] at h
      rcases hfr : find_step2_zero rest2 with _ | off2
      · rw [hfr] at h
        simp at h
      · rw [hfr] at h
        simp at h
        obtain ⟨h1, h2, h3, h4⟩ := ih.1 off2 hfr
        subst h
        refine ⟨by omega, by simp; omega, by simpa using h3, ?_⟩
        intro j hj hje
        rcases j with _ | j1
        · simpa using hne
        rcases j1 with _ | j2
        · omega
        · simp only [List.getD_cons_succ]
          exact h4 j2 (by omega) (by omega)
    · intro h j hj hje
      rw [hunf] at h
      rcases hfr : find_step2_zero rest2 with _ | off2
      · rcases j with _ | j1
        · simpa using hne
        rcases j1 with _ | j2
        · omega
        · simp only [List.getD_cons_succ]
          exact ih.2 hfr j2 (by simp at hj; omega) (by omega)
      · rw [hfr] at h
        simp at h

/-- Characterization of `key_value_slice` for a cursor within bounds: there
is a boundary `z` — either the first even-offset zero at/after the cursor,
or the array end when none exists — such that the slice is the run
`[cursor, z)` and the new cursor is `z + 1`. -/
theorem key_value_slice_spec (kv : List Int) (c : Nat) (hc : c ≤ kv.length) :
    ∃ z, key_value_slice kv c = ((kv.drop c).take (z - c), z + 1) ∧
      c ≤ z ∧ z ≤ kv.length ∧
      (∀ j, c ≤ j → j < z → (j - c) % 2 = 0 → kv.getD j 1 ≠ 0) ∧
      (z < kv.length → (z - c) % 2 = 0 ∧ kv.getD z 1 = 0) := by
  rcases hf : find_step2_zero (kv.drop c) with _ | off
  · refine ⟨kv.length, ?_, hc, le_refl _, ?_, ?_⟩
    · simp [key_value_slice, hf]
    · intro j hcj hjz hje
      have hlt : j - c < (kv.drop c).length := by simp; omega
      have := (find_step2_zero_spec (kv.drop c)).2 hf (j - c) hlt hje
      rw [getD_drop, show c + (j - c) = j from by omega] at this
      exact this
    · intro hzl
      omega
  · obtain ⟨h1, h2, h3, h4⟩ := (find_step2_zero_spec (kv.drop c)).1 off hf
    have hofflen : off < kv.length - c := by simpa using h2
    refine ⟨c + off, ?_, by omega, by omega, ?_, ?_⟩
    · simp [key_value_slice, hf]
    · intro j hcj hjz hje
      have := h4 (j - c) (by omega) (by omega)
      rw [getD_drop, show c + (j - c) = j from by omega] at this
      exact this
    · intro _
      constructor
      · omega
      · rw [← getD_drop]
        exact h3

/-- While elements remain, `DenseNodeReader::next` always yields an item
(a node or a per-item error), never the end of the sequence. -/
theorem dense_next_isSome (r : DenseNodeReader)
    (h : r.pos < min r.data.id.length (min r.data.lat.length r.data.lon.length)) :
    ((DenseNodeReader.next r).1).isSome := by
  rcases hdi : r.data.denseinfo with _ | di
  · simp [DenseNodeReader.next, DenseNodeReader.finish_step, hdi, h]
  · rcases hg : di.user_sid.get? r.pos with _ | delta <;>
      rw [List.get?_eq_getElem?] at hg
    · simp [DenseNodeReader.next, DenseNodeReader.finish_step, hdi, hg, h]
    · rcases hc : checked_add_signed r.current.user_sid delta with _ | v
      · simp [DenseNodeReader.next, DenseNodeReader.finish_step, hdi, hg, hc, h]
      · simp [DenseNodeReader.next, DenseNodeReader.finish_step, hdi, hg, hc, h]

/-- Every per-item error yielded by `DenseNodeReader::next` is the
`user_sid` underflow `LogicError`; in particular the id/lat/lon length
mismatch is never reported during iteration. -/
theorem dense_next_error_form (r s : DenseNodeReader) (e : Error)
    (h : DenseNodeReader.next r = (some (Except.error e), s)) :
    ∃ cur delta, e = Error.LogicError (user_sid_msg cur delta) := by
  by_cases hn : r.pos < min r.data.id.length (min r.data.lat.length r.data.lon.length)
  · rcases hdi : r.data.denseinfo with _ | di
    · simp [DenseNodeReader.next, DenseNodeReader.finish_step, hdi, hn] at h
    · rcases hg : di.user_sid.get? r.pos with _ | delta <;>
        rw [List.get?_eq_getElem?] at hg
      · simp [DenseNodeReader.next, DenseNodeReader.finish_step, hdi, hg, hn] at h
      · rcases hc : checked_add_signed r.current.user_sid delta with _ | v
        · simp [DenseNodeReader.next, hdi, hg, hc, hn] at h
          exact ⟨r.current.user_sid, delta, h.1.symm⟩
        · simp [DenseNodeReader.next, DenseNodeReader.finish_step, hdi, hg, hc, hn] at h
  · simp [DenseNodeReader.next, hn] at h

/-- C7: `DenseNodeReader::new` fails, before any iteration, exactly when
the id/latitude/longitude arrays are not all of equal length, and the
mismatch is never reported as a per-item error during iteration (every
per-item error is the `user_sid` underflow one). -/
theorem c7_dense_node_reader_new (data : DenseNodes) :
    ((∃ e, DenseNodeReader.new data = Except.error e) ↔
      ¬ (data.lat.length = data.id.length ∧ data.lon.length = data.id.length)) ∧
    (∀ (r s : DenseNodeReader) (e : Error),
      DenseNodeReader.next r = (some (Except.error e), s) →
      ∃ cur delta, e = Error.LogicError (user_sid_msg cur delta)) := by
  constructor
  · unfold DenseNodeReader.new
    split
    · rename_i hcond
      exact iff_of_true ⟨_, rfl⟩ (by tauto)
    · rename_i hcond
      push_neg at hcond
      refine iff_of_false ?_ (by simp [hcond.1, hcond.2])
      rintro ⟨e, h⟩
      exact Except.noConfusion h
  · exact dense_next_error_form

/-- C7 witness: lengths 1/0/0 fail at construction; a concrete per-item
error (first step of `dense_nodes_underflow0`) has the `user_sid` form. -/
theorem c7_dense_node_reader_new_witness :
    (∃ e, DenseNodeReader.new
      { id := [0], lat := [], lon := [], keys_vals := [], denseinfo := none } =
        Except.error e) ∧
    (∃ cur delta,
      Error.LogicError (user_sid_msg 0 (-1)) = Error.LogicError (user_sid_msg cur delta)) :=
  ⟨(c7_dense_node_reader_new
      { id := [0], lat := [], lon := [], keys_vals := [], denseinfo := none }).1.mpr
      (by decide),
   (c7_dense_node_reader_new dense_nodes_underflow0).2
      { data := dense_nodes_underflow0, pos := 0, key_value_idx := 0, current := {} } _ _ rfl⟩

/-- C3 (corrected).  The original claim — later nodes decode "as if the
error had not occurred" — fails (see the counterexample): on a `user_sid`
underflow the step early-returns BEFORE applying the timestamp/changeset/uid
deltas and before advancing the tag cursor, so those deltas are skipped for
good.  Amended: the underflow step yields a `LogicError` carrying the
`user_sid` message; the element has been consumed (position advances) and
the id/lat/lon accumulators advance, but the `user_sid`, timestamp,
changeset and uid accumulators and the tag-index cursor are left exactly as
before the step (the step's metadata deltas are skipped, not applied), and
iteration continues with the next element. -/
theorem c3_user_sid_underflow (r : DenseNodeReader) (dense_info : DenseInfo)
    (user_sid_delta : Int)
    (hn : r.pos < min r.data.id.length (min r.data.lat.length r.data.lon.length))
    (hdi : r.data.denseinfo = some dense_info)
    (hget : dense_info.user_sid.get? r.pos = some user_sid_delta)
    (hneg : checked_add_signed r.current.user_sid user_sid_delta = none) :
    DenseNodeReader.next r =
      (some (Except.error (Error.LogicError (user_sid_msg r.current.user_sid user_sid_delta))),
        { r with
          pos := r.pos + 1,
          current := { r.current with
            id := r.current.id + r.data.id.getD r.pos 0,
            lat := r.current.lat + r.data.lat.getD r.pos 0,
            lon := r.current.lon + r.data.lon.getD r.pos 0 } }) ∧
    (r.pos + 1 < min r.data.id.length (min r.data.lat.length r.data.lon.length) →
      ((DenseNodeReader.next ((DenseNodeReader.next r).2)).1).isSome) := by
  rw [List.get?_eq_getElem?] at hget
  have h1 : DenseNodeReader.next r =
      (some (Except.error (Error.LogicError (user_sid_msg r.current.user_sid user_sid_delta))),
        { r with
          pos := r.pos + 1,
          current := { r.current with
            id := r.current.id + r.data.id.getD r.pos 0,
            lat := r.current.lat + r.data.lat.getD r.pos 0,
            lon := r.current.lon + r.data.lon.getD r.pos 0 } }) := by
    simp [DenseNodeReader.next, hdi, hget, hneg, hn, List.getD_eq_getElem?_getD]
  refine ⟨h1, fun h2 => ?_⟩
  rw [h1]
  exact dense_next_isSome _ (by simpa using h2)

/-- C3 witness: at `dense_skip_state1` (delta -1 onto accumulator 0) the
step errors with the `user_sid` message and the next step still yields. -/
theorem c3_user_sid_underflow_witness :
    checked_add_signed 0 (-1) = none ∧
    (DenseNodeReader.next dense_skip_state1).1 =
      some (Except.error (Error.LogicError (user_sid_msg 0 (-1)))) ∧
    ((DenseNodeReader.next ((DenseNodeReader.next dense_skip_state1).2)).1).isSome :=
  ⟨by decide,
   by
     rw [(c3_user_sid_underflow dense_skip_state1 _ (-1) (by decide) rfl rfl (by decide)).1]
     rfl,
   (c3_user_sid_underflow dense_skip_state1 _ (-1) (by decide) rfl rfl (by decide)).2
     (by decide)⟩

/-- C3 counterexample: on `dense_nodes_skip` (timestamp deltas [10,20,30],
`user_sid` deltas [0,-1,0]) the third node's timestamp is 40 — the delta 20
of the failed step was skipped — while the claim's "as if the error had not
occurred" run (`dense_nodes_noerr`) reaches 60. -/
theorem c3_counterexample :
    DenseNodeReader.new dense_nodes_skip =
      Except.ok { data := dense_nodes_skip, pos := 0, key_value_idx := 0, current := {} } ∧
    runIter DenseNodeReader.next 3
        { data := dense_nodes_skip, pos := 0, key_value_idx := 0, current := {} } =
      [Except.ok (zero_node 10 0),
       Except.error (Error.LogicError (user_sid_msg 0 (-1))),
       Except.ok (zero_node 40 0)] ∧
    runIter DenseNodeReader.next 3
        { data := dense_nodes_noerr, pos := 0, key_value_idx := 0, current := {} } =
      [Except.ok (zero_node 10 0), Except.ok (zero_node 30 1), Except.ok (zero_node 60 1)] ∧
    (40 : Int) ≠ 10 + 20 + 30 :=
  ⟨rfl, rfl, rfl, by decide⟩

/-- C4: the spec's concrete dense-node decode yields exactly the two stated
nodes; in general a node's tag slice runs from the cursor up to (not
including) the first zero found scanning in 2-wide steps (or to the array
end when none exists) with the cursor advancing past the separating zero;
and an empty shared array yields an empty slice with the cursor untouched
for every node. -/
theorem c4_dense_node_decode :
    (DenseNodeReader.new dense_nodes_c4 =
        Except.ok { data := dense_nodes_c4, pos := 0, key_value_idx := 0, current := {} } ∧
      runIter DenseNodeReader.next 3
          { data := dense_nodes_c4, pos := 0, key_value_idx := 0, current := {} } =
        [Except.ok c4_node1, Except.ok c4_node2]) ∧
    (∀ (kv : List Int) (c : Nat), c ≤ kv.length →
      ∃ z, key_value_slice kv c = ((kv.drop c).take (z - c), z + 1) ∧
        c ≤ z ∧ z ≤ kv.length ∧
        (∀ j, c ≤ j → j < z → (j - c) % 2 = 0 → kv.getD j 1 ≠ 0) ∧
        (z < kv.length → (z - c) % 2 = 0 ∧ kv.getD z 1 = 0)) ∧
    (∀ (r : DenseNodeReader) (cur : DeltaCodedValues) (info : Option Info),
      r.data.keys_vals = [] →
      DenseNodeReader.finish_step r cur info =
        (some (Except.ok
            { id := cur.id, lat := cur.lat, lon := cur.lon, info := info,
              key_value_indices := [] }),
          { r with pos := r.pos + 1, current := cur })) :=
  ⟨⟨rfl, rfl⟩, key_value_slice_spec,
   fun r cur info h => by simp [DenseNodeReader.finish_step, h]⟩

/-- C4 witness: the slice characterization instantiated at the example
array and cursor 3 (second node: slice [3,4], zero at index 5, cursor 6),
and the empty-array case at a concrete state. -/
theorem c4_dense_node_decode_witness :
    3 ≤ ([1, 2, 0, 3, 4, 0] : List Int).length ∧
    (∃ z, key_value_slice [1, 2, 0, 3, 4, 0] 3 =
        ((([1, 2, 0, 3, 4, 0] : List Int).drop 3).take (z - 3), z + 1) ∧
      3 ≤ z ∧ z ≤ ([1, 2, 0, 3, 4, 0] : List Int).length ∧
      (∀ j, 3 ≤ j → j < z → (j - 3) % 2 = 0 → ([1, 2, 0, 3, 4, 0] : List Int).getD j 1 ≠ 0) ∧
      (z < ([1, 2, 0, 3, 4, 0] : List Int).length →
        (z - 3) % 2 = 0 ∧ ([1, 2, 0, 3, 4, 0] : List Int).getD z 1 = 0)) ∧
    DenseNodeReader.finish_step
        { data := dense_nodes_skip, pos := 0, key_value_idx := 0, current := {} } {} none =
      (some (Except.ok { id := 0, lat := 0, lon := 0, info := none, key_value_indices := [] }),
        { data := dense_nodes_skip, pos := 1, key_value_idx := 0, current := {} }) :=
  ⟨by decide,
   c4_dense_node_decode.2.1 [1, 2, 0, 3, 4, 0] 3 (by decide),
   c4_dense_node_decode.2.2
     { data := dense_nodes_skip, pos := 0, key_value_idx := 0, current := {} } {} none rfl⟩

end Rosm
